import Mathlib

/-!
Shallow embedding of the `atmosphere` repository fragment:
`api/v2/serializers/details/image_bookmark.py`, `core/tests/helpers.py`
and `core/admin.py`, together with theorems settling the specification
claims about them.

Database-backed records are modelled as Lean structures whose `pk` field
stands for the ORM primary key; tables are lists of records; the Django
`objects.get_or_create` call is modelled by `getOrCreate`, which returns
the first record matching all the lookup keyword arguments and otherwise
prepends a freshly created record carrying the next free primary key.
-/

set_option autoImplicit false

namespace Atmosphere

/-! ### `api/v2/serializers/details/image_bookmark.py` -/

/-- Errors a serializer call can surface: a DRF `ValidationError` with its
detail message, or a Python `KeyError` from a missing dictionary key. -/
inductive SerializerError where
  | validationError (detail : String)
  | keyError (key : String)
deriving DecidableEq, Repr

/-- The `ImageBookmark` (= `ApplicationBookmark`) table: each row is the
pair (application primary key, user primary key). -/
structure BookmarkDB where
  bookmarks : List (Nat × Nat)
deriving DecidableEq, Repr

/-- `ImageBookmark.objects.get(application=value, user=user)`: the first
row matching both lookups, `none` modelling `ImageBookmark.DoesNotExist`. -/
def ImageBookmark_get (db : BookmarkDB) (application user : Nat) : Option (Nat × Nat) :=
  db.bookmarks.find? (fun b => b.1 == application && b.2 == user)

/-- The serializer context dictionary: `request = some u` when the context
has a `'request'` key whose request carries authenticated user `u`;
`none` models a context with no `'request'` key. -/
structure SerializerContext where
  request : Option Nat
deriving DecidableEq, Repr

/-- `ImageBookmarkSerializer.validate_image`, instrumented with the number
of bookmark-table lookups performed.  `self.context['request']` is read
first: on a context without the key this raises `KeyError` (the `try`
block only catches `ImageBookmark.DoesNotExist`) before any lookup.
Otherwise the duplicate check runs: an existing bookmark raises
`ValidationError("Image already bookmarked")`, else `value` is returned. -/
def validate_image_traced (db : BookmarkDB) (ctx : SerializerContext) (value : Nat) :
    Except SerializerError Nat × Nat :=
  match ctx.request with
  | none => (Except.error (SerializerError.keyError "request"), 0)
  | some user =>
    match ImageBookmark_get db value user with
    | some _ => (Except.error (SerializerError.validationError "Image already bookmarked"), 1)
    | none => (Except.ok value, 1)

/-- The result of `ImageBookmarkSerializer.validate_image`. -/
def validate_image (db : BookmarkDB) (ctx : SerializerContext) (value : Nat) :
    Except SerializerError Nat :=
  (validate_image_traced db ctx value).1

/-- How many bookmark-table lookups `validate_image` performs. -/
def validate_image_lookups (db : BookmarkDB) (ctx : SerializerContext) (value : Nat) : Nat :=
  (validate_image_traced db ctx value).2

/-- Creating a bookmark through the serializer: run `validate_image` and,
when it passes, insert the (image, requesting user) row. -/
def create_bookmark (db : BookmarkDB) (ctx : SerializerContext) (image : Nat) :
    Except SerializerError BookmarkDB :=
  match ctx.request with
  | none => Except.error (SerializerError.keyError "request")
  | some user =>
    match validate_image db ctx image with
    | Except.error e => Except.error e
    | Except.ok v => Except.ok ⟨(v, user) :: db.bookmarks⟩

/-- An `Image` (= `Application`) record as far as the serializer reads it. -/
structure Image where
  pk : Nat
  name : String
deriving DecidableEq, Repr

/-- Wire representation of the serializer's `image` field: either a bare
primary key or the `ImageSummarySerializer` summary object. -/
inductive ImageFieldRepr where
  | primaryKey (pk : Nat)
  | summary (name : String) (pk : Nat)
deriving DecidableEq, Repr

/-- `ImageSummarySerializer(value).data`: the summary object of an image. -/
def ImageSummarySerializer_data (img : Image) : ImageFieldRepr :=
  ImageFieldRepr.summary img.name img.pk

/-- `ImagePrimaryKeyRelatedField.to_representation`: the read side renders
the image through `ImageSummarySerializer`, not as a bare primary key. -/
def ImagePrimaryKeyRelatedField_to_representation (img : Image) : ImageFieldRepr :=
  ImageSummarySerializer_data img

/-- The write side of `PrimaryKeyRelatedField`: a submitted primary key is
resolved against the field's queryset (`Image.objects.all()`). -/
def ImagePrimaryKeyRelatedField_to_internal_value (queryset : List Image) (pk : Nat) :
    Option Image :=
  queryset.find? (fun img => img.pk == pk)

/-- `ImageBookmarkSerializer.Meta.fields`. -/
def ImageBookmarkSerializer_Meta_fields : List String := ["id", "url", "image", "user"]

/-- A submitted bookmark payload: the `image` primary key, plus whatever
`user` value the client chose to put on the wire (if any). -/
structure BookmarkPayload where
  image : Nat
  user : Option Nat
deriving DecidableEq, Repr

/-- Running the serializer's validation on a payload.  The `user` field is
declared `UserSummarySerializer(read_only=True)`, so deserialization drops
any wire-supplied `user` value: only `payload.image` and the context's
request user enter the duplicate check. -/
def ImageBookmarkSerializer_run_validation (db : BookmarkDB) (ctx : SerializerContext)
    (payload : BookmarkPayload) : Except SerializerError Nat :=
  validate_image db ctx payload.image

/-! ### `core/tests/helpers.py` — ORM model -/

/-- Django `Model.objects.get_or_create(**lookups)`: return the first row
matching the lookups; otherwise create a row from the same lookups under
the next free primary key and prepend it.  Returns the record, the next
free primary key after the call, and the resulting table. -/
def getOrCreate {α : Type} (sel : α → Bool) (make : Nat → α)
    (nextPk : Nat) (table : List α) : α × Nat × List α :=
  match table.find? sel with
  | some r => (r, nextPk, table)
  | none => (make nextPk, nextPk + 1, make nextPk :: table)

/-- A `PlatformType` or `ProviderType` row (`name` is the only lookup). -/
structure NamedTypeRec where
  pk : Nat
  name : String
deriving DecidableEq, Repr

/-- A `Provider` row as the helpers create it. -/
structure ProviderRec where
  pk : Nat
  location : String
  virtualization : Nat
  type : Nat
  public : Bool
deriving DecidableEq, Repr

/-- An `Identity` row as the helpers read it. -/
structure IdentityRec where
  pk : Nat
  created_by : Nat
  provider : Nat
deriving DecidableEq, Repr

/-- An `Application` row as `_new_provider_machine` creates it. -/
structure ApplicationRec where
  pk : Nat
  name : String
  description : String
  created_by : Nat
  created_by_identity : Nat
  uuid : Nat
deriving DecidableEq, Repr

/-- An `ApplicationVersion` row as `_new_provider_machine` creates it. -/
structure ApplicationVersionRec where
  pk : Nat
  application : Nat
  name : String
  change_log : String
  created_by : Nat
  created_by_identity : Nat
deriving DecidableEq, Repr

/-- An `InstanceSource` row as `_new_provider_machine` creates it. -/
structure InstanceSourceRec where
  pk : Nat
  provider : Nat
  created_by : Nat
  created_by_identity : Nat
  identifier : Nat
deriving DecidableEq, Repr

/-- A `ProviderMachine` row as `_new_provider_machine` creates it. -/
structure ProviderMachineRec where
  pk : Nat
  application_version : Nat
  instance_source : Nat
deriving DecidableEq, Repr

/-- The test database the fixture helpers operate on.  `nextPk` is the
next free primary key; `nextUuid` models `uuid4()`, which yields a fresh,
never previously produced identifier on every call. -/
structure TestDB where
  nextPk : Nat
  nextUuid : Nat
  platformTypes : List NamedTypeRec
  providerTypes : List NamedTypeRec
  providers : List ProviderRec
  applications : List ApplicationRec
  applicationVersions : List ApplicationVersionRec
  instanceSources : List InstanceSourceRec
  providerMachines : List ProviderMachineRec
deriving DecidableEq, Repr

/-- The empty test database. -/
def TestDB.empty : TestDB := ⟨0, 0, [], [], [], [], [], [], []⟩

/-- `uuid4()`: a fresh identifier, distinct from every earlier one. -/
def uuid4 (db : TestDB) : Nat × TestDB :=
  (db.nextUuid, { db with nextUuid := db.nextUuid + 1 })

/-- The lookup predicate of a `PlatformType`/`ProviderType` get-or-create. -/
def namedTypeSel (name : String) : NamedTypeRec → Bool :=
  fun t => t.name == name

/-- The row a `PlatformType`/`ProviderType` get-or-create would create. -/
def namedTypeMk (name : String) : Nat → NamedTypeRec :=
  fun pk => ⟨pk, name⟩

/-- The lookup predicate of the helpers' `Provider` get-or-create. -/
def providerSel (location : String) (virtualization type : Nat) (public : Bool) :
    ProviderRec → Bool :=
  fun p => p.location == location && p.virtualization == virtualization
    && p.type == type && p.public == public

/-- The row the helpers' `Provider` get-or-create would create. -/
def providerMk (location : String) (virtualization type : Nat) (public : Bool) :
    Nat → ProviderRec :=
  fun pk => ⟨pk, location, virtualization, type, public⟩

/-- The lookup predicate of the helpers' `Application` get-or-create. -/
def applicationSel (name description : String) (created_by created_by_identity uuid : Nat) :
    ApplicationRec → Bool :=
  fun a => a.name == name && a.description == description
    && a.created_by == created_by && a.created_by_identity == created_by_identity
    && a.uuid == uuid

/-- The row the helpers' `Application` get-or-create would create. -/
def applicationMk (name description : String) (created_by created_by_identity uuid : Nat) :
    Nat → ApplicationRec :=
  fun pk => ⟨pk, name, description, created_by, created_by_identity, uuid⟩

/-- The lookup predicate of the `ApplicationVersion` get-or-create. -/
def applicationVersionSel (application : Nat) (name change_log : String)
    (created_by created_by_identity : Nat) : ApplicationVersionRec → Bool :=
  fun v => v.application == application && v.name == name
    && v.change_log == change_log && v.created_by == created_by
    && v.created_by_identity == created_by_identity

/-- The row the `ApplicationVersion` get-or-create would create. -/
def applicationVersionMk (application : Nat) (name change_log : String)
    (created_by created_by_identity : Nat) : Nat → ApplicationVersionRec :=
  fun pk => ⟨pk, application, name, change_log, created_by, created_by_identity⟩

/-- The lookup predicate of the `InstanceSource` get-or-create. -/
def instanceSourceSel (provider created_by created_by_identity identifier : Nat) :
    InstanceSourceRec → Bool :=
  fun s => s.provider == provider && s.created_by == created_by
    && s.created_by_identity == created_by_identity && s.identifier == identifier

/-- The row the `InstanceSource` get-or-create would create. -/
def instanceSourceMk (provider created_by created_by_identity identifier : Nat) :
    Nat → InstanceSourceRec :=
  fun pk => ⟨pk, provider, created_by, created_by_identity, identifier⟩

/-- The lookup predicate of the `ProviderMachine` get-or-create. -/
def providerMachineSel (application_version instance_source : Nat) :
    ProviderMachineRec → Bool :=
  fun m => m.application_version == application_version
    && m.instance_source == instance_source

/-- The row the `ProviderMachine` get-or-create would create. -/
def providerMachineMk (application_version instance_source : Nat) :
    Nat → ProviderMachineRec :=
  fun pk => ⟨pk, application_version, instance_source⟩

/-- `PlatformType.objects.get_or_create(name=...)`. -/
def PlatformType_get_or_create (db : TestDB) (name : String) : NamedTypeRec × TestDB :=
  let r := getOrCreate (namedTypeSel name) (namedTypeMk name) db.nextPk db.platformTypes
  (r.1, { db with nextPk := r.2.1, platformTypes := r.2.2 })

/-- `ProviderType.objects.get_or_create(name=...)`. -/
def ProviderType_get_or_create (db : TestDB) (name : String) : NamedTypeRec × TestDB :=
  let r := getOrCreate (namedTypeSel name) (namedTypeMk name) db.nextPk db.providerTypes
  (r.1, { db with nextPk := r.2.1, providerTypes := r.2.2 })

/-- `Provider.objects.get_or_create(location=..., virtualization=...,
type=..., public=...)`. -/
def Provider_get_or_create (db : TestDB) (location : String)
    (virtualization type : Nat) (public : Bool) : ProviderRec × TestDB :=
  let r := getOrCreate (providerSel location virtualization type public)
    (providerMk location virtualization type public) db.nextPk db.providers
  (r.1, { db with nextPk := r.2.1, providers := r.2.2 })

/-- `Application.objects.get_or_create(name=..., description=...,
created_by=..., created_by_identity=..., uuid=...)`. -/
def Application_get_or_create (db : TestDB) (name description : String)
    (created_by created_by_identity uuid : Nat) : ApplicationRec × TestDB :=
  let r := getOrCreate (applicationSel name description created_by created_by_identity uuid)
    (applicationMk name description created_by created_by_identity uuid)
    db.nextPk db.applications
  (r.1, { db with nextPk := r.2.1, applications := r.2.2 })

/-- `ApplicationVersion.objects.get_or_create(application=..., name=...,
change_log=..., created_by=..., created_by_identity=...)`. -/
def ApplicationVersion_get_or_create (db : TestDB) (application : Nat) (name change_log : String)
    (created_by created_by_identity : Nat) : ApplicationVersionRec × TestDB :=
  let r := getOrCreate
    (applicationVersionSel application name change_log created_by created_by_identity)
    (applicationVersionMk application name change_log created_by created_by_identity)
    db.nextPk db.applicationVersions
  (r.1, { db with nextPk := r.2.1, applicationVersions := r.2.2 })

/-- `InstanceSource.objects.get_or_create(provider=..., created_by=...,
created_by_identity=..., identifier=...)`. -/
def InstanceSource_get_or_create (db : TestDB) (provider created_by created_by_identity identifier : Nat) :
    InstanceSourceRec × TestDB :=
  let r := getOrCreate
    (instanceSourceSel provider created_by created_by_identity identifier)
    (instanceSourceMk provider created_by created_by_identity identifier)
    db.nextPk db.instanceSources
  (r.1, { db with nextPk := r.2.1, instanceSources := r.2.2 })

/-- `ProviderMachine.objects.get_or_create(application_version=...,
instance_source=...)`. -/
def ProviderMachine_get_or_create (db : TestDB) (application_version instance_source : Nat) :
    ProviderMachineRec × TestDB :=
  let r := getOrCreate (providerMachineSel application_version instance_source)
    (providerMachineMk application_version instance_source)
    db.nextPk db.providerMachines
  (r.1, { db with nextPk := r.2.1, providerMachines := r.2.2 })

/-! ### `core/tests/helpers.py` — fixture factories -/

/-- `_new_providers()`: get-or-create the KVM platform type, the OpenStack
provider type, and the two public providers; returns the dictionary
`{"openstack": ..., "workshop": ...}` as an ordered pair. -/
def _new_providers (db : TestDB) : (ProviderRec × ProviderRec) × TestDB :=
  let kvm := PlatformType_get_or_create db "KVM"
  let openstack_type := ProviderType_get_or_create kvm.2 "OpenStack"
  let openstack := Provider_get_or_create openstack_type.2
    "Example OpenStack - Tucson" kvm.1.pk openstack_type.1.pk true
  let openstack_workshop := Provider_get_or_create openstack.2
    "Example OpenStack - Workshop" kvm.1.pk openstack_type.1.pk true
  ((openstack.1, openstack_workshop.1), openstack_workshop.2)

/-- `_new_provider_machine(name, version, identity, identifier=None)`:
when `identifier` is unset a fresh `uuid4()` is drawn; then the
Application, ApplicationVersion, InstanceSource and ProviderMachine rows
are get-or-created in turn and the machine is returned. -/
def _new_provider_machine (db : TestDB) (name version : String) (identity : IdentityRec)
    (identifier : Option Nat) : ProviderMachineRec × TestDB :=
  let idn : Nat × TestDB :=
    match identifier with
    | some i => (i, db)
    | none => uuid4 db
  let app := Application_get_or_create idn.2 name
    ("Mock Test Application named " ++ name)
    identity.created_by identity.pk idn.1
  let application_version := ApplicationVersion_get_or_create app.2 app.1.pk version
    "Mock Version" identity.created_by identity.pk
  let source := InstanceSource_get_or_create application_version.2 identity.provider
    identity.created_by identity.pk idn.1
  let machine := ProviderMachine_get_or_create source.2
    application_version.1.pk source.1.pk
  machine

/-- A `Size` row as `_init_sizes` creates it. -/
structure SizeRec where
  pk : Nat
  name : String
  «alias» : String
  cpu : Nat
  mem : Nat
  disk : Nat
  root : Nat
  provider : Nat
deriving DecidableEq, Repr

/-- The lookup predicate of the `Size` get-or-create of `_init_sizes`. -/
def sizeSel (name «alias» : String) (cpu mem disk root provider : Nat) : SizeRec → Bool :=
  fun s => s.name == name && s.«alias» == «alias» && s.cpu == cpu && s.mem == mem
    && s.disk == disk && s.root == root && s.provider == provider

/-- The row the `Size` get-or-create of `_init_sizes` would create. -/
def sizeMk (name «alias» : String) (cpu mem disk root provider : Nat) : Nat → SizeRec :=
  fun pk => ⟨pk, name, «alias», cpu, mem, disk, root, provider⟩

/-- `Size.objects.get_or_create(name=..., alias=..., cpu=..., mem=...,
disk=..., root=..., provider=...)` over a sizes table. -/
def Size_get_or_create (nextPk : Nat) (table : List SizeRec)
    (name «alias» : String) (cpu mem disk root provider : Nat) :
    SizeRec × Nat × List SizeRec :=
  getOrCreate (sizeSel name «alias» cpu mem disk root provider)
    (sizeMk name «alias» cpu mem disk root provider) nextPk table

/-- The `size_params` list of `CoreStatusHistoryHelper._init_sizes`:
(name, alias, CPU, MEM, DISK/ROOT). -/
def size_params : List (String × String × Nat × Nat × Nat) :=
  [("1", "tiny", 1, 1024 * 2, 0),
   ("2", "small", 2, 1024 * 4, 0),
   ("3", "medium", 4, 1024 * 8, 0),
   ("4", "large", 8, 1024 * 16, 0)]

/-- The loop body of `_init_sizes`: get-or-create each size and bind it to
its alias in `AVAILABLE_SIZES` (an association list keyed in insertion
order, modelling the Python dict). -/
def _init_sizes_loop (provider : Nat) :
    List (String × String × Nat × Nat × Nat) →
    Nat → List SizeRec → List (String × SizeRec) →
    List (String × SizeRec) × Nat × List SizeRec
  | [], nextPk, table, acc => (acc, nextPk, table)
  | p :: rest, nextPk, table, acc =>
    let r := Size_get_or_create nextPk table p.1 p.2.1 p.2.2.1 p.2.2.2.1 p.2.2.2.2 p.2.2.2.2 provider
    _init_sizes_loop provider rest r.2.1 r.2.2 (acc ++ [(p.2.1, r.1)])

/-- `CoreStatusHistoryHelper._init_sizes(provider)`: the resulting
`AVAILABLE_SIZES` dictionary (plus the next free primary key and the
sizes table after the call). -/
def _init_sizes (provider nextPk : Nat) (table : List SizeRec) :
    List (String × SizeRec) × Nat × List SizeRec :=
  _init_sizes_loop provider size_params nextPk table []

/-- `CoreStatusHistoryHelper.set_size(size_name)`: a name missing from
`AVAILABLE_SIZES` raises `ValueError("Size:<name> not found in
AVAILABLE_SIZES")`; otherwise `self.size` becomes the catalog entry. -/
def CoreStatusHistoryHelper_set_size (AVAILABLE_SIZES : List (String × SizeRec))
    (size_name : String) : Except String SizeRec :=
  match AVAILABLE_SIZES.lookup size_name with
  | none => Except.error ("Size:" ++ size_name ++ " not found in AVAILABLE_SIZES")
  | some s => Except.ok s

/-- `CoreInstanceHelper.set_provider(provider)`: a name missing from
`AVAILABLE_PROVIDERS` raises a ValueError naming the provider; otherwise
`self.provider` becomes the catalog entry. -/
def CoreInstanceHelper_set_provider (AVAILABLE_PROVIDERS : List (String × ProviderRec))
    (provider : String) : Except String ProviderRec :=
  match AVAILABLE_PROVIDERS.lookup provider with
  | none => Except.error ("The test provider specified " ++ provider ++ " is not a valid provider")
  | some p => Except.ok p

/-- The `machine` argument of `CoreInstanceHelper.set_machine`: either a
`ProviderMachine` object or a string name. -/
inductive MachineArg where
  | providerMachine (m : ProviderMachineRec)
  | name (s : String)
deriving DecidableEq, Repr

/-- `CoreInstanceHelper.set_machine(machine)`: a `ProviderMachine` object
is always accepted as-is; a string must match a key of
`AVAILABLE_MACHINES` exactly, else a ValueError names the machine. -/
def CoreInstanceHelper_set_machine (AVAILABLE_MACHINES : List (String × ProviderMachineRec))
    (machine : MachineArg) : Except String ProviderMachineRec :=
  match machine with
  | MachineArg.providerMachine m => Except.ok m
  | MachineArg.name s =>
    match AVAILABLE_MACHINES.lookup s with
    | none => Except.error ("The test machine specified " ++ s ++ " is not a valid machine")
    | some m => Except.ok m

/-! ### `core/admin.py` -/

/-- The model classes `core/admin.py` mentions in registration calls,
plus the framework defaults.  `DjangoSession`, `DjangoGroup` and
`DjangoUser` are the framework's models; `Group` is `core.models.Group`. -/
inductive AdminModel where
  | AtmosphereUser
  | DjangoSession
  | Credential
  | Group
  | Application
  | Allocation
  | CloudAdministrator
  | AccountProvider
  | Identity
  | IdentityMembership
  | Instance
  | InstanceStatusHistory
  | MachineRequest
  | MaintenanceRecord
  | NodeController
  | Provider
  | ProviderMachine
  | ProviderMachineMembership
  | ProviderMembership
  | ProviderType
  | Quota
  | Size
  | Step
  | Tag
  | Volume
  | DjangoGroup
  | DjangoUser
deriving DecidableEq, Repr

/-- An `admin.site.register` / `admin.site.unregister` call. -/
inductive AdminAction where
  | register (m : AdminModel)
  | unregister (m : AdminModel)
deriving DecidableEq, Repr

/-- The module-level registration calls of `core/admin.py`, in source
order (the `admin.site.unregister(DjangoUser)` line is commented out). -/
def coreAdminActions : List AdminAction :=
  [AdminAction.register AdminModel.AtmosphereUser,
   AdminAction.register AdminModel.DjangoSession,
   AdminAction.register AdminModel.Credential,
   AdminAction.unregister AdminModel.DjangoGroup,
   AdminAction.register AdminModel.Group,
   AdminAction.register AdminModel.Application,
   AdminAction.register AdminModel.Allocation,
   AdminAction.register AdminModel.CloudAdministrator,
   AdminAction.register AdminModel.AccountProvider,
   AdminAction.register AdminModel.Identity,
   AdminAction.register AdminModel.IdentityMembership,
   AdminAction.register AdminModel.Instance,
   AdminAction.register AdminModel.InstanceStatusHistory,
   AdminAction.register AdminModel.MachineRequest,
   AdminAction.register AdminModel.MaintenanceRecord,
   AdminAction.register AdminModel.NodeController,
   AdminAction.register AdminModel.Provider,
   AdminAction.register AdminModel.ProviderMachine,
   AdminAction.register AdminModel.ProviderMachineMembership,
   AdminAction.register AdminModel.ProviderMembership,
   AdminAction.register AdminModel.ProviderType,
   AdminAction.register AdminModel.Quota,
   AdminAction.register AdminModel.Size,
   AdminAction.register AdminModel.Step,
   AdminAction.register AdminModel.Tag,
   AdminAction.register AdminModel.Volume]

/-- The models passed to `admin.site.register` by `core/admin.py`. -/
def registeredModels : List AdminModel :=
  coreAdminActions.filterMap (fun a =>
    match a with
    | AdminAction.register m => some m
    | AdminAction.unregister _ => none)

/-- Applying the registration calls to an admin-site registry. -/
def runAdminActions (registry : List AdminModel) : List AdminAction → List AdminModel
  | [] => registry
  | AdminAction.register m :: rest => runAdminActions (registry ++ [m]) rest
  | AdminAction.unregister m :: rest =>
    runAdminActions (registry.filter (fun x => x ≠ m)) rest

/-- The registry the framework hands to `core/admin.py`: `django.contrib`
registers its default `User` and `Group` models before this module runs. -/
def frameworkDefaultRegistry : List AdminModel :=
  [AdminModel.DjangoUser, AdminModel.DjangoGroup]

/-- The admin registry after `core/admin.py` has been imported. -/
def finalAdminRegistry : List AdminModel :=
  runAdminActions frameworkDefaultRegistry coreAdminActions

/-- The ~25 record types the claim lists. -/
def claimedAdminModels : List AdminModel :=
  [AdminModel.AtmosphereUser, AdminModel.DjangoSession, AdminModel.Credential,
   AdminModel.Group, AdminModel.Application, AdminModel.Allocation,
   AdminModel.CloudAdministrator, AdminModel.AccountProvider, AdminModel.Identity,
   AdminModel.IdentityMembership, AdminModel.Instance, AdminModel.InstanceStatusHistory,
   AdminModel.MachineRequest, AdminModel.MaintenanceRecord, AdminModel.NodeController,
   AdminModel.Provider, AdminModel.ProviderMachine, AdminModel.ProviderMachineMembership,
   AdminModel.ProviderMembership, AdminModel.ProviderType, AdminModel.Quota,
   AdminModel.Size, AdminModel.Step, AdminModel.Tag, AdminModel.Volume]

/-- A database record as the admin bulk actions see it: its primary key,
the two fields the actions write (`end_date`, `private`), and `rest`
standing for every other column of the row. -/
structure AdminRecord where
  pk : Nat
  end_date : Option Nat
  «private» : Bool
  rest : Nat
deriving DecidableEq, Repr

/-- `queryset.update(end_date=timezone.now())` over the whole table: rows
selected by the queryset get `end_date` set to `now`; the rest are left
alone.  This is the body of the admin action `end_date_object`. -/
def end_date_object (now : Nat) (qs : Nat → Bool) (table : List AdminRecord) :
    List AdminRecord :=
  table.map (fun r => if qs r.pk then { r with end_date := some now } else r)

/-- `queryset.update(private=True)` over the whole table: rows selected by
the queryset get `private` set to `True`; the rest are left alone.  This
is the body of the admin action `private_object`. -/
def private_object (qs : Nat → Bool) (table : List AdminRecord) :
    List AdminRecord :=
  table.map (fun r => if qs r.pk then { r with «private» := true } else r)

/-! ### Theorems -/

/-! Generic facts about the `get_or_create` model. -/

/-- When the lookup already finds a row, `get_or_create` returns it and
leaves the store untouched. -/
theorem getOrCreate_of_find?_eq_some {α : Type} {sel : α → Bool} {make : Nat → α}
    {nextPk : Nat} {table : List α} {r : α} (h : table.find? sel = some r) :
    getOrCreate sel make nextPk table = (r, nextPk, table) := by
  simp [getOrCreate, h]

/-- The record `get_or_create` returns always matches its own lookup. -/
theorem getOrCreate_sel {α : Type} {sel : α → Bool} {make : Nat → α}
    {nextPk : Nat} {table : List α} (hmk : ∀ n, sel (make n) = true) :
    sel (getOrCreate sel make nextPk table).1 = true := by
  cases h : table.find? sel with
  | none => simpa [getOrCreate, h] using hmk nextPk
  | some r => simpa [getOrCreate, h] using List.find?_some h

/-- After a `get_or_create`, the same lookup finds the returned record. -/
theorem find?_getOrCreate_self {α : Type} {sel : α → Bool} {make : Nat → α}
    {nextPk : Nat} {table : List α} (hmk : ∀ n, sel (make n) = true) :
    (getOrCreate sel make nextPk table).2.2.find? sel
      = some (getOrCreate sel make nextPk table).1 := by
  cases h : table.find? sel with
  | none => simp [getOrCreate, h, List.find?_cons_of_pos, hmk]
  | some r => simp [getOrCreate, h]

/-- A `get_or_create` does not disturb a lookup whose predicate rejects
the row it would create. -/
theorem find?_getOrCreate_other {α : Type} {sel sel2 : α → Bool} {make : Nat → α}
    {nextPk : Nat} {table : List α} (hmk : ∀ n, sel2 (make n) = false) :
    (getOrCreate sel make nextPk table).2.2.find? sel2 = table.find? sel2 := by
  cases h : table.find? sel with
  | none => simp [getOrCreate, h, List.find?_cons_of_neg, hmk]
  | some r => simp [getOrCreate, h]

/-! The found/self-lookup lemmas instantiated at each helper table. -/

/-- A found `PlatformType` row makes the call the identity on the state. -/
theorem PlatformType_get_or_create_of_found {db : TestDB} {name : String} {r : NamedTypeRec}
    (h : db.platformTypes.find? (namedTypeSel name) = some r) :
    PlatformType_get_or_create db name = (r, db) := by
  simp only [PlatformType_get_or_create]
  rw [getOrCreate_of_find?_eq_some h]

/-- After `PlatformType_get_or_create`, its lookup finds its record. -/
theorem PlatformType_get_or_create_find_self (db : TestDB) (name : String) :
    (PlatformType_get_or_create db name).2.platformTypes.find? (namedTypeSel name)
      = some (PlatformType_get_or_create db name).1 :=
  find?_getOrCreate_self (fun n => by simp [namedTypeSel, namedTypeMk])

/-- A found `ProviderType` row makes the call the identity on the state. -/
theorem ProviderType_get_or_create_of_found {db : TestDB} {name : String} {r : NamedTypeRec}
    (h : db.providerTypes.find? (namedTypeSel name) = some r) :
    ProviderType_get_or_create db name = (r, db) := by
  simp only [ProviderType_get_or_create]
  rw [getOrCreate_of_find?_eq_some h]

/-- After `ProviderType_get_or_create`, its lookup finds its record. -/
theorem ProviderType_get_or_create_find_self (db : TestDB) (name : String) :
    (ProviderType_get_or_create db name).2.providerTypes.find? (namedTypeSel name)
      = some (ProviderType_get_or_create db name).1 :=
  find?_getOrCreate_self (fun n => by simp [namedTypeSel, namedTypeMk])

/-- A found `Provider` row makes the call the identity on the state. -/
theorem Provider_get_or_create_of_found {db : TestDB} {location : String}
    {virtualization type : Nat} {public : Bool} {r : ProviderRec}
    (h : db.providers.find? (providerSel location virtualization type public) = some r) :
    Provider_get_or_create db location virtualization type public = (r, db) := by
  simp only [Provider_get_or_create]
  rw [getOrCreate_of_find?_eq_some h]

/-- After `Provider_get_or_create`, its lookup finds its record. -/
theorem Provider_get_or_create_find_self (db : TestDB) (location : String)
    (virtualization type : Nat) (public : Bool) :
    (Provider_get_or_create db location virtualization type public).2.providers.find?
        (providerSel location virtualization type public)
      = some (Provider_get_or_create db location virtualization type public).1 :=
  find?_getOrCreate_self (fun n => by simp [providerSel, providerMk])

/-- A found `Application` row makes the call the identity on the state. -/
theorem Application_get_or_create_of_found {db : TestDB} {name description : String}
    {created_by created_by_identity uuid : Nat} {r : ApplicationRec}
    (h : db.applications.find?
        (applicationSel name description created_by created_by_identity uuid) = some r) :
    Application_get_or_create db name description created_by created_by_identity uuid
      = (r, db) := by
  simp only [Application_get_or_create]
  rw [getOrCreate_of_find?_eq_some h]

/-- After `Application_get_or_create`, its lookup finds its record. -/
theorem Application_get_or_create_find_self (db : TestDB) (name description : String)
    (created_by created_by_identity uuid : Nat) :
    (Application_get_or_create db name description created_by created_by_identity
        uuid).2.applications.find?
        (applicationSel name description created_by created_by_identity uuid)
      = some (Application_get_or_create db name description created_by created_by_identity
          uuid).1 :=
  find?_getOrCreate_self (fun n => by simp [applicationSel, applicationMk])

/-- A found `ApplicationVersion` row makes the call the identity on the state. -/
theorem ApplicationVersion_get_or_create_of_found {db : TestDB} {application : Nat}
    {name change_log : String} {created_by created_by_identity : Nat}
    {r : ApplicationVersionRec}
    (h : db.applicationVersions.find?
        (applicationVersionSel application name change_log created_by created_by_identity)
      = some r) :
    ApplicationVersion_get_or_create db application name change_log created_by
        created_by_identity
      = (r, db) := by
  simp only [ApplicationVersion_get_or_create]
  rw [getOrCreate_of_find?_eq_some h]

/-- After `ApplicationVersion_get_or_create`, its lookup finds its record. -/
theorem ApplicationVersion_get_or_create_find_self (db : TestDB) (application : Nat)
    (name change_log : String) (created_by created_by_identity : Nat) :
    (ApplicationVersion_get_or_create db application name change_log created_by
        created_by_identity).2.applicationVersions.find?
        (applicationVersionSel application name change_log created_by created_by_identity)
      = some (ApplicationVersion_get_or_create db application name change_log created_by
          created_by_identity).1 :=
  find?_getOrCreate_self (fun n => by simp [applicationVersionSel, applicationVersionMk])

/-- A found `InstanceSource` row makes the call the identity on the state. -/
theorem InstanceSource_get_or_create_of_found {db : TestDB}
    {provider created_by created_by_identity identifier : Nat} {r : InstanceSourceRec}
    (h : db.instanceSources.find?
        (instanceSourceSel provider created_by created_by_identity identifier) = some r) :
    InstanceSource_get_or_create db provider created_by created_by_identity identifier
      = (r, db) := by
  simp only [InstanceSource_get_or_create]
  rw [getOrCreate_of_find?_eq_some h]

/-- After `InstanceSource_get_or_create`, its lookup finds its record. -/
theorem InstanceSource_get_or_create_find_self (db : TestDB)
    (provider created_by created_by_identity identifier : Nat) :
    (InstanceSource_get_or_create db provider created_by created_by_identity
        identifier).2.instanceSources.find?
        (instanceSourceSel provider created_by created_by_identity identifier)
      = some (InstanceSource_get_or_create db provider created_by created_by_identity
          identifier).1 :=
  find?_getOrCreate_self (fun n => by simp [instanceSourceSel, instanceSourceMk])

/-- A found `ProviderMachine` row makes the call the identity on the state. -/
theorem ProviderMachine_get_or_create_of_found {db : TestDB}
    {application_version instance_source : Nat} {r : ProviderMachineRec}
    (h : db.providerMachines.find?
        (providerMachineSel application_version instance_source) = some r) :
    ProviderMachine_get_or_create db application_version instance_source = (r, db) := by
  simp only [ProviderMachine_get_or_create]
  rw [getOrCreate_of_find?_eq_some h]

/-- After `ProviderMachine_get_or_create`, its lookup finds its record. -/
theorem ProviderMachine_get_or_create_find_self (db : TestDB)
    (application_version instance_source : Nat) :
    (ProviderMachine_get_or_create db application_version
        instance_source).2.providerMachines.find?
        (providerMachineSel application_version instance_source)
      = some (ProviderMachine_get_or_create db application_version instance_source).1 :=
  find?_getOrCreate_self (fun n => by simp [providerMachineSel, providerMachineMk])

/-- When every row `_new_provider_machine` would ensure is already found
by its lookup, the call returns the found machine and leaves the state
untouched. -/
theorem new_provider_machine_finds (db : TestDB) (name version : String)
    (identity : IdentityRec) (i : Nat) (a : ApplicationRec) (v : ApplicationVersionRec)
    (s : InstanceSourceRec) (m : ProviderMachineRec)
    (ha : db.applications.find?
        (applicationSel name ("Mock Test Application named " ++ name)
          identity.created_by identity.pk i) = some a)
    (hv : db.applicationVersions.find?
        (applicationVersionSel a.pk version "Mock Version"
          identity.created_by identity.pk) = some v)
    (hs : db.instanceSources.find?
        (instanceSourceSel identity.provider identity.created_by identity.pk i) = some s)
    (hm : db.providerMachines.find? (providerMachineSel v.pk s.pk) = some m) :
    _new_provider_machine db name version identity (some i) = (m, db) := by
  simp only [_new_provider_machine, Application_get_or_create_of_found ha]
  simp only [ApplicationVersion_get_or_create_of_found hv]
  simp only [InstanceSource_get_or_create_of_found hs]
  simp only [ProviderMachine_get_or_create_of_found hm]

/-- Running `_new_provider_machine` twice with the same explicit
identifier: the second run returns the first run's machine and leaves the
state unchanged. -/
theorem new_provider_machine_idem (db : TestDB) (name version : String)
    (identity : IdentityRec) (i : Nat) :
    _new_provider_machine (_new_provider_machine db name version identity (some i)).2
        name version identity (some i)
      = _new_provider_machine db name version identity (some i) :=
  let A := Application_get_or_create db name ("Mock Test Application named " ++ name)
    identity.created_by identity.pk i
  let V := ApplicationVersion_get_or_create A.2 A.1.pk version "Mock Version"
    identity.created_by identity.pk
  let S := InstanceSource_get_or_create V.2 identity.provider identity.created_by
    identity.pk i
  new_provider_machine_finds _ name version identity i A.1 V.1 S.1
    (ProviderMachine_get_or_create S.2 V.1.pk S.1.pk).1
    (Application_get_or_create_find_self db name
      ("Mock Test Application named " ++ name) identity.created_by identity.pk i)
    (ApplicationVersion_get_or_create_find_self A.2 A.1.pk version "Mock Version"
      identity.created_by identity.pk)
    (InstanceSource_get_or_create_find_self V.2 identity.provider identity.created_by
      identity.pk i)
    (ProviderMachine_get_or_create_find_self S.2 V.1.pk S.1.pk)

/-- When every row `_new_providers` would ensure is already found by its
lookup, the call returns the found providers and leaves the state
untouched. -/
theorem new_providers_finds (db : TestDB) (k o : NamedTypeRec) (p1 p2 : ProviderRec)
    (hk : db.platformTypes.find? (namedTypeSel "KVM") = some k)
    (ho : db.providerTypes.find? (namedTypeSel "OpenStack") = some o)
    (hp1 : db.providers.find?
        (providerSel "Example OpenStack - Tucson" k.pk o.pk true) = some p1)
    (hp2 : db.providers.find?
        (providerSel "Example OpenStack - Workshop" k.pk o.pk true) = some p2) :
    _new_providers db = ((p1, p2), db) := by
  simp only [_new_providers, PlatformType_get_or_create_of_found hk]
  simp only [ProviderType_get_or_create_of_found ho]
  simp only [Provider_get_or_create_of_found hp1]
  simp only [Provider_get_or_create_of_found hp2]

/-- Running `_new_providers` twice: the second run returns the first
run's providers and leaves the state unchanged. -/
theorem new_providers_idem (db : TestDB) :
    _new_providers (_new_providers db).2 = _new_providers db :=
  let K := PlatformType_get_or_create db "KVM"
  let O := ProviderType_get_or_create K.2 "OpenStack"
  let P1 := Provider_get_or_create O.2 "Example OpenStack - Tucson" K.1.pk O.1.pk true
  new_providers_finds _ K.1 O.1 P1.1
    (Provider_get_or_create P1.2 "Example OpenStack - Workshop" K.1.pk O.1.pk true).1
    (PlatformType_get_or_create_find_self db "KVM")
    (ProviderType_get_or_create_find_self K.2 "OpenStack")
    (Eq.trans
      (find?_getOrCreate_other (fun n => by
        have hloc :
            ("Example OpenStack - Workshop" == "Example OpenStack - Tucson") = false := rfl
        simp [providerSel, providerMk, hloc]))
      (Provider_get_or_create_find_self O.2 "Example OpenStack - Tucson" K.1.pk O.1.pk
        true))
    (Provider_get_or_create_find_self P1.2 "Example OpenStack - Workshop" K.1.pk O.1.pk
      true)

/-- C2 counterexample: with `identifier` left unset, two
`_new_provider_machine` calls with the same name, version and identity do
NOT return the same records: each call draws a fresh `uuid4()`, the
`uuid`-keyed `Application` lookup (and the `identifier`-keyed
`InstanceSource` lookup) misses, and a second `Application` row is
created; the returned `ProviderMachine` records differ. -/
theorem new_provider_machine_duplicates_without_identifier :
    (_new_provider_machine
        (_new_provider_machine TestDB.empty "ubuntu" "1.0" ⟨0, 0, 0⟩ none).2
        "ubuntu" "1.0" ⟨0, 0, 0⟩ none).1
      ≠ (_new_provider_machine TestDB.empty "ubuntu" "1.0" ⟨0, 0, 0⟩ none).1
    ∧ (_new_provider_machine TestDB.empty "ubuntu" "1.0" ⟨0, 0, 0⟩ none).2.applications.length
        = 1
    ∧ (_new_provider_machine
        (_new_provider_machine TestDB.empty "ubuntu" "1.0" ⟨0, 0, 0⟩ none).2
        "ubuntu" "1.0" ⟨0, 0, 0⟩ none).2.applications.length = 2 := by
  refine ⟨by decide, by decide, by decide⟩

/-- C2 (amended): `_new_providers` is idempotent on any state, and
`_new_provider_machine` is idempotent whenever the same identifier is
supplied explicitly: the repeat call returns the same records and leaves
the database unchanged.  (With `identifier` left unset the factory is not
idempotent, since each call draws a fresh `uuid4()`.) -/
theorem fixture_factories_idempotent (db db2 : TestDB) (name version : String)
    (identity : IdentityRec) (i : Nat) :
    _new_providers (_new_providers db).2 = _new_providers db
    ∧ _new_provider_machine (_new_provider_machine db2 name version identity (some i)).2
        name version identity (some i)
      = _new_provider_machine db2 name version identity (some i) :=
  ⟨new_providers_idem db, new_provider_machine_idem db2 name version identity i⟩

/-- C3: requesting an unregistered name from a fixture helper raises:
`set_size` raises a `ValueError` naming the size for any `size_name` not
in `AVAILABLE_SIZES`, and `set_provider` raises a `ValueError` naming the
provider for any provider name not in `AVAILABLE_PROVIDERS`. -/
theorem unregistered_fixture_names_raise (AVAILABLE_SIZES : List (String × SizeRec))
    (AVAILABLE_PROVIDERS : List (String × ProviderRec)) (size_name provider : String)
    (hs : AVAILABLE_SIZES.lookup size_name = none)
    (hp : AVAILABLE_PROVIDERS.lookup provider = none) :
    CoreStatusHistoryHelper_set_size AVAILABLE_SIZES size_name
      = Except.error ("Size:" ++ size_name ++ " not found in AVAILABLE_SIZES")
    ∧ CoreInstanceHelper_set_provider AVAILABLE_PROVIDERS provider
      = Except.error ("The test provider specified " ++ provider
          ++ " is not a valid provider") := by
  simp [CoreStatusHistoryHelper_set_size, CoreInstanceHelper_set_provider, hs, hp]

/-- C3 witness: the unregistered size "huge" and provider "aws" raise
their respective errors on empty catalogs. -/
theorem unregistered_fixture_names_raise_witness :
    CoreStatusHistoryHelper_set_size [] "huge"
      = Except.error ("Size:" ++ "huge" ++ " not found in AVAILABLE_SIZES")
    ∧ CoreInstanceHelper_set_provider [] "aws"
      = Except.error ("The test provider specified " ++ "aws"
          ++ " is not a valid provider") :=
  unregistered_fixture_names_raise [] [] "huge" "aws" rfl rfl

/-- C8: `set_machine` accepts any `ProviderMachine` object directly
without consulting `AVAILABLE_MACHINES` — for every machine and every
catalog it assigns it and returns without raising — whereas a string name
missing from the catalog raises a `ValueError` naming the machine. -/
theorem set_machine_accepts_provider_machine_object
    (AVAILABLE_MACHINES : List (String × ProviderMachineRec)) (m : ProviderMachineRec) :
    CoreInstanceHelper_set_machine AVAILABLE_MACHINES (MachineArg.providerMachine m)
      = Except.ok m
    ∧ (∀ s : String, AVAILABLE_MACHINES.lookup s = none →
        CoreInstanceHelper_set_machine AVAILABLE_MACHINES (MachineArg.name s)
          = Except.error ("The test machine specified " ++ s
              ++ " is not a valid machine")) :=
  ⟨rfl, fun s h => by simp [CoreInstanceHelper_set_machine, h]⟩

/-- C8 witness: a machine object is accepted as-is on an empty catalog,
while the unknown name "ubuntu" raises there. -/
theorem set_machine_accepts_provider_machine_object_witness :
    CoreInstanceHelper_set_machine []
        (MachineArg.providerMachine ⟨3, 1, 2⟩) = Except.ok ⟨3, 1, 2⟩
    ∧ CoreInstanceHelper_set_machine [] (MachineArg.name "ubuntu")
        = Except.error ("The test machine specified " ++ "ubuntu"
            ++ " is not a valid machine") :=
  ⟨(set_machine_accepts_provider_machine_object [] ⟨3, 1, 2⟩).1,
    (set_machine_accepts_provider_machine_object [] ⟨3, 1, 2⟩).2 "ubuntu" rfl⟩

/-- The record a `Size` get-or-create returns carries the requested
field values (whether it was found or freshly created). -/
theorem Size_get_or_create_fields (nextPk : Nat) (table : List SizeRec)
    (name «alias» : String) (cpu mem disk root provider : Nat) :
    (Size_get_or_create nextPk table name «alias» cpu mem disk root provider).1.cpu = cpu
    ∧ (Size_get_or_create nextPk table name «alias» cpu mem disk root provider).1.mem = mem
    ∧ (Size_get_or_create nextPk table name «alias» cpu mem disk root provider).1.disk = disk
    ∧ (Size_get_or_create nextPk table name «alias» cpu mem disk root provider).1.root = root
    ∧ (Size_get_or_create nextPk table name «alias» cpu mem disk root provider).1.provider
        = provider := by
  have h := @getOrCreate_sel SizeRec (sizeSel name «alias» cpu mem disk root provider)
    (sizeMk name «alias» cpu mem disk root provider) nextPk table
    (fun n => by simp [sizeSel, sizeMk])
  simp only [sizeSel, Bool.and_eq_true, beq_iff_eq] at h
  exact ⟨h.1.1.1.1.2, h.1.1.1.2, h.1.1.2, h.1.2, h.2⟩

/-- C6: `_init_sizes` registers exactly the four aliases tiny, small,
medium and large (in insertion order), with tiny 1 CPU / 2048 MB, small
2 CPU / 4096 MB, medium 4 CPU / 8192 MB, large 8 CPU / 16384 MB, all
with 0 disk and 0 root, on the given provider. -/
theorem init_sizes_default_catalog (provider nextPk : Nat) (table : List SizeRec) :
    ((_init_sizes provider nextPk table).1.map Prod.fst
        = ["tiny", "small", "medium", "large"])
    ∧ (∃ s, (_init_sizes provider nextPk table).1.lookup "tiny" = some s
        ∧ s.cpu = 1 ∧ s.mem = 2048 ∧ s.disk = 0 ∧ s.root = 0 ∧ s.provider = provider)
    ∧ (∃ s, (_init_sizes provider nextPk table).1.lookup "small" = some s
        ∧ s.cpu = 2 ∧ s.mem = 4096 ∧ s.disk = 0 ∧ s.root = 0 ∧ s.provider = provider)
    ∧ (∃ s, (_init_sizes provider nextPk table).1.lookup "medium" = some s
        ∧ s.cpu = 4 ∧ s.mem = 8192 ∧ s.disk = 0 ∧ s.root = 0 ∧ s.provider = provider)
    ∧ (∃ s, (_init_sizes provider nextPk table).1.lookup "large" = some s
        ∧ s.cpu = 8 ∧ s.mem = 16384 ∧ s.disk = 0 ∧ s.root = 0 ∧ s.provider = provider) := by
  simp only [_init_sizes, size_params, _init_sizes_loop]
  refine ⟨by simp, ⟨_, rfl, ?_⟩, ⟨_, rfl, ?_⟩, ⟨_, rfl, ?_⟩, ⟨_, rfl, ?_⟩⟩
  · exact Size_get_or_create_fields _ _ "1" "tiny" 1 2048 0 0 provider
  · exact Size_get_or_create_fields _ _ "2" "small" 2 4096 0 0 provider
  · exact Size_get_or_create_fields _ _ "3" "medium" 4 8192 0 0 provider
  · exact Size_get_or_create_fields _ _ "4" "large" 8 16384 0 0 provider

/-- C1: `validate_image` raises `ValidationError("Image already
bookmarked")` if and only if a bookmark for (image, requesting user)
already exists; with no existing bookmark it returns the image value
unchanged; creating a bookmark twice for the same (image, user) pair
fails on the second attempt, while a distinct pair with no existing
bookmark still succeeds after the first creation. -/
theorem validate_image_duplicate_check (db : BookmarkDB) (user image : Nat) :
    (validate_image db ⟨some user⟩ image
        = Except.error (SerializerError.validationError "Image already bookmarked")
      ↔ ImageBookmark_get db image user ≠ none)
    ∧ (ImageBookmark_get db image user = none →
        validate_image db ⟨some user⟩ image = Except.ok image)
    ∧ (∀ db1 : BookmarkDB, create_bookmark db ⟨some user⟩ image = Except.ok db1 →
        create_bookmark db1 ⟨some user⟩ image
          = Except.error (SerializerError.validationError "Image already bookmarked"))
    ∧ (∀ image2 user2 : Nat, ∀ db1 : BookmarkDB,
        (image2, user2) ≠ (image, user) →
        ImageBookmark_get db image2 user2 = none →
        create_bookmark db ⟨some user⟩ image = Except.ok db1 →
        create_bookmark db1 ⟨some user2⟩ image2
          = Except.ok ⟨(image2, user2) :: db1.bookmarks⟩) := by
  refine ⟨?_, ?_, ?_, ?_⟩
  · cases h : ImageBookmark_get db image user <;>
      simp [validate_image, validate_image_traced, h]
  · intro h
    simp [validate_image, validate_image_traced, h]
  · intro db1 hc
    cases h : ImageBookmark_get db image user <;>
      simp [create_bookmark, validate_image, validate_image_traced, h] at hc ⊢
    subst hc
    simp [ImageBookmark_get, List.find?]
  · intro image2 user2 db1 hne hnone hc
    cases h : ImageBookmark_get db image user <;>
      simp [create_bookmark, validate_image, validate_image_traced, h] at hc ⊢
    subst hc
    have hhead : ¬(image = image2 ∧ user = user2) := by
      intro hh
      exact hne (by simp [hh.1, hh.2])
    simp only [ImageBookmark_get, List.find?] at hnone ⊢
    rcases Decidable.em (image = image2) with h1 | h1
    · rcases Decidable.em (user = user2) with h2 | h2
      · exact absurd ⟨h1, h2⟩ hhead
      · have hb : (user == user2) = false := by simp [h2]
        simp [h1, hb, hnone]
    · have hb : (image == image2) = false := by simp [h1]
      simp [hb, hnone]

/-- C1 witness: on an empty bookmark table, the first creation for
(image 7, user 0) succeeds and the second attempt fails with the
duplicate-bookmark validation error. -/
theorem validate_image_duplicate_check_witness :
    create_bookmark ⟨[]⟩ ⟨some 0⟩ 7 = Except.ok ⟨[(7, 0)]⟩
    ∧ create_bookmark ⟨[(7, 0)]⟩ ⟨some 0⟩ 7
        = Except.error (SerializerError.validationError "Image already bookmarked") :=
  ⟨rfl, (validate_image_duplicate_check ⟨[]⟩ 0 7).2.2.1 ⟨[(7, 0)]⟩ rfl⟩

/-- C4: the bookmark serializer exposes exactly the fields
{id, url, image, user}; on read the image field renders the
`ImageSummarySerializer` summary object and never a bare primary key; on
write a submitted primary key resolves to an existing image of the
queryset bearing that key. -/
theorem image_bookmark_fields_and_image_field (qs : List Image) (pk : Nat) (img : Image) :
    ImageBookmarkSerializer_Meta_fields = ["id", "url", "image", "user"]
    ∧ (∀ i : Image, ImagePrimaryKeyRelatedField_to_representation i
        = ImageFieldRepr.summary i.name i.pk)
    ∧ (∀ i : Image, ∀ n : Nat,
        ImagePrimaryKeyRelatedField_to_representation i ≠ ImageFieldRepr.primaryKey n)
    ∧ (ImagePrimaryKeyRelatedField_to_internal_value qs pk = some img →
        img ∈ qs ∧ img.pk = pk) := by
  refine ⟨rfl, fun i => rfl, fun i n => by
    simp [ImagePrimaryKeyRelatedField_to_representation, ImageSummarySerializer_data], ?_⟩
  intro h
  refine ⟨List.mem_of_find?_eq_some h, ?_⟩
  have := List.find?_some h
  simpa using this

/-- C4 witness: primary key 5 resolves to the image with key 5 in a
one-image queryset, which is a member of the queryset. -/
theorem image_bookmark_fields_and_image_field_witness :
    (⟨5, "img"⟩ : Image) ∈ [(⟨5, "img"⟩ : Image)] ∧ (⟨5, "img"⟩ : Image).pk = 5 :=
  (image_bookmark_fields_and_image_field [⟨5, "img"⟩] 5 ⟨5, "img"⟩).2.2.2 rfl

/-- C5: the `user` field is read-only, so two payloads differing only in
the wire-supplied `user` value validate identically: the duplicate check
runs against the context's requesting user either way. -/
theorem bookmark_user_not_wire_controllable (db : BookmarkDB) (ctx : SerializerContext)
    (p1 p2 : BookmarkPayload) (himg : p1.image = p2.image) :
    ImageBookmarkSerializer_run_validation db ctx p1
      = ImageBookmarkSerializer_run_validation db ctx p2 := by
  simp [ImageBookmarkSerializer_run_validation, himg]

/-- C5 witness: a payload with no wire `user` and one claiming user 99
validate identically for requesting user 1. -/
theorem bookmark_user_not_wire_controllable_witness :
    ImageBookmarkSerializer_run_validation ⟨[(5, 2)]⟩ ⟨some 1⟩ ⟨5, none⟩
      = ImageBookmarkSerializer_run_validation ⟨[(5, 2)]⟩ ⟨some 1⟩ ⟨5, some 99⟩ :=
  bookmark_user_not_wire_controllable ⟨[(5, 2)]⟩ ⟨some 1⟩ ⟨5, none⟩ ⟨5, some 99⟩ rfl

/-- C9: with no `'request'` key in the context, `validate_image` fails
with the uncaught `KeyError` before performing any bookmark lookup, and
never with a `ValidationError`; with an authenticated request present,
the `KeyError` branch is unreachable. -/
theorem validate_image_requires_request_context (db : BookmarkDB) (value : Nat) :
    (validate_image db ⟨none⟩ value = Except.error (SerializerError.keyError "request")
      ∧ validate_image_lookups db ⟨none⟩ value = 0
      ∧ ∀ d : String,
          validate_image db ⟨none⟩ value ≠ Except.error (SerializerError.validationError d))
    ∧ (∀ user : Nat, ∀ k : String,
        validate_image db ⟨some user⟩ value ≠ Except.error (SerializerError.keyError k)) := by
  refine ⟨⟨rfl, rfl, fun d => by simp [validate_image, validate_image_traced]⟩, ?_⟩
  intro user k
  cases h : ImageBookmark_get db value user <;>
    simp [validate_image, validate_image_traced, h]

/-- C9 witness: on a context without a request, validation of image 3
against an empty table yields the `KeyError` and performs no lookup. -/
theorem validate_image_requires_request_context_witness :
    validate_image ⟨[]⟩ ⟨none⟩ 3 = Except.error (SerializerError.keyError "request")
    ∧ validate_image_lookups ⟨[]⟩ ⟨none⟩ 3 = 0 :=
  ⟨(validate_image_requires_request_context ⟨[]⟩ 3).1.1,
    (validate_image_requires_request_context ⟨[]⟩ 3).1.2.1⟩

/-- C7: the models `core/admin.py` passes to `admin.site.register` are
exactly the 25 listed record types (AtmosphereUser, the framework
Session, Credential, Group, Application, Allocation, CloudAdministrator,
AccountProvider, Identity, IdentityMembership, Instance,
InstanceStatusHistory, MachineRequest, MaintenanceRecord, NodeController,
Provider, ProviderMachine, ProviderMachineMembership, ProviderMembership,
ProviderType, Quota, Size, Step, Tag, Volume), and the framework's
default Group model is unregistered. -/
theorem admin_registry_models :
    (∀ m : AdminModel, m ∈ registeredModels ↔ m ∈ claimedAdminModels)
    ∧ registeredModels.length = 25
    ∧ AdminAction.unregister AdminModel.DjangoGroup ∈ coreAdminActions
    ∧ AdminModel.DjangoGroup ∉ finalAdminRegistry := by
  refine ⟨?_, by decide, by decide, by decide⟩
  intro m
  cases m <;> decide

/-- C10: the admin bulk actions touch only their single target field on
the selected rows and nothing else: `end_date_object` sets `end_date` to
the current time on every row the queryset selects, `private_object`
sets `private` to true there, every other field of a selected row is
carried over unchanged, and rows outside the queryset are returned
exactly as they were; both actions preserve the table's length. -/
theorem admin_actions_frame (now : Nat) (qs : Nat → Bool) (table : List AdminRecord) :
    (end_date_object now qs table).length = table.length
    ∧ (private_object qs table).length = table.length
    ∧ (∀ i : Fin table.length,
        (end_date_object now qs table).get
            (i.cast (by simp [end_date_object]))
          = if qs (table.get i).pk
            then { table.get i with end_date := some now }
            else table.get i)
    ∧ (∀ i : Fin table.length,
        (private_object qs table).get
            (i.cast (by simp [private_object]))
          = if qs (table.get i).pk
            then { table.get i with «private» := true }
            else table.get i) := by
  refine ⟨by simp [end_date_object], by simp [private_object], ?_, ?_⟩ <;>
    · intro i
      simp [end_date_object, private_object, List.get_eq_getElem, List.getElem_map]

end Atmosphere
